import Mathlib

/-!
Verification development for the email-worker repository (worker.js, the
schema variant using retries, maxRetries, result and data.ticketId).

The worker's job documents, ticket documents and SMTP credentials are
embedded as Lean structures; processEmailJob (the Job State Machine),
the inner send-with-fallback try/catch (the Delivery Strategy) and the
pollJobs query (the Poll Scheduler) are embedded as pure functions over
an explicit environment.  The environment records, for one invocation,
what the store and the SMTP transport would answer: the ticket and
credential collections, the outcome of the primary and of the fallback
send, and for each of the five store-write sites whether that write
succeeds or rejects with a message (mongoose save / findByIdAndUpdate
return promises that can reject).  The trace of store reads, store
writes and network sends is returned in order, so ordering claims can
be stated about it.
-/

/-- Job status enumeration of the worker's job schema. -/
inductive JobStatus
  | queued
  | pending
  | processing
  | completed
  | error
  | failed
deriving DecidableEq, Repr

/-- Success payload stored in job.result on completion. -/
structure EmailResult where
  success : Bool
  messageId : String
deriving DecidableEq, Repr

/-- Job document.  The data payload's fields used by processEmailJob are
flattened; a field is none when absent from the payload (undefined). -/
structure Job where
  id : Nat
  job_type : String
  dataTicketId : Option Nat
  dataAttachmentBase64 : Option String
  dataAttachmentFilename : Option String
  dataFromName : Option String
  dataRecipientEmail : Option String
  dataSubject : Option String
  dataTextBody : Option String
  dataHtmlBody : Option String
  status : JobStatus
  result : Option EmailResult
  error : Option String
  retries : Nat
  maxRetries : Nat
  created_at : Nat
  updated_at : Nat
deriving DecidableEq, Repr

/-- Ticket document; eventName is the populated event's name when the
reference resolves (ticket.event?.name), detailsName and detailsEmail
come from ticket.ticket_details. -/
structure Ticket where
  id : Nat
  ticket_number : String
  eventName : Option String
  status : String
  detailsName : Option String
  detailsEmail : Option String
deriving DecidableEq, Repr

/-- SMTP credential document. -/
structure EmailCredential where
  id : Nat
  name : String
  email : String
  smtp_server : String
  smtp_port : Nat
  username : String
  password : String
  is_active : Bool
  daily_limit : Option Nat
  daily_usage : Nat
deriving DecidableEq, Repr

/-- JavaScript truthiness of an optional string field: undefined and the
empty string are falsy. -/
def jsTruthy : Option String → Bool
  | none => false
  | some s => !(s == "")

/-- JavaScript a-or-default on a string field (a or d with a falsy when
undefined or empty). -/
def jsOr : Option String → String → String
  | some s, d => if s == "" then d else s
  | none, d => d

/-- JavaScript a-or-null on a string field (htmlBody or null). -/
def jsOrNull : Option String → Option String
  | some s => if s == "" then none else some s
  | none => none

/-- Error thrown by the transport library; code is the error code field
(for example ETIMEDOUT), message the human-readable message. -/
structure SendError where
  code : Option String
  message : String
deriving DecidableEq, Repr

/-- Outcome of one sendEmail call (verify plus sendMail). -/
inductive SendOutcome
  | ok (messageId : String)
  | err (e : SendError)
deriving DecidableEq, Repr

/-- Composed nodemailer message options. -/
structure EmailOptions where
  fromField : String
  toField : Option String
  subject : String
  text : String
  html : Option String
  attachFilename : String
  attachContent : String
deriving DecidableEq, Repr

/-- Message composition of processEmailJob: defaults applied with
JavaScript or-semantics, recipient from the job payload when present,
else from the ticket. -/
def composeEmail (job : Job) (ticket : Ticket) (cred : EmailCredential) : EmailOptions :=
  { fromField := "\"" ++ jsOr job.dataFromName "Admin" ++ "\" <" ++ cred.email ++ ">"
  , toField := if jsTruthy job.dataRecipientEmail then job.dataRecipientEmail else ticket.detailsEmail
  , subject := jsOr job.dataSubject ("Your Ticket for " ++ jsOr ticket.eventName "Event")
  , text := jsOr job.dataTextBody "Your ticket is attached."
  , html := jsOrNull job.dataHtmlBody
  , attachFilename := job.dataAttachmentFilename.getD ""
  , attachContent := job.dataAttachmentBase64.getD "" }

/-- Eligibility filter of the credential query: is_active true and
(daily_limit absent or null, or daily_usage below daily_limit). -/
def credentialEligible (c : EmailCredential) : Bool :=
  c.is_active &&
    (match c.daily_limit with
      | none => true
      | some l => decide (c.daily_usage < l))

/-- EmailCredential.findOne: first document of the collection matching
the eligibility filter, none when the collection holds no match. -/
def selectCredential (creds : List EmailCredential) : Option EmailCredential :=
  creds.find? credentialEligible

/-- Ticket.findById on the ticket collection. -/
def findTicket (ts : List Ticket) (tid : Nat) : Option Ticket :=
  ts.find? (fun t => t.id == tid)

/-- Claim step of processEmailJob: status processing, retries
incremented, updated_at refreshed. -/
def claimJob (job : Job) (now : Nat) : Job :=
  { job with status := JobStatus.processing, retries := job.retries + 1, updated_at := now }

/-- Inner try/catch of processEmailJob around sendEmail: primary attempt
on the configured port; on an ETIMEDOUT error with configured port 587 a
single fallback attempt with usePort465 true; every other error, and a
fallback error, propagates.  Returns the result together with the list
of usePort465 flags of the attempts made, in order. -/
def trySend (cred : EmailCredential) (primary fallback : SendOutcome) :
    Except SendError String × List Bool :=
  match primary with
  | SendOutcome.ok m => (Except.ok m, [false])
  | SendOutcome.err e =>
    if e.code = some "ETIMEDOUT" ∧ cred.smtp_port = 587 then
      match fallback with
      | SendOutcome.ok m => (Except.ok m, [false, true])
      | SendOutcome.err e2 => (Except.error e2, [false, true])
    else (Except.error e, [false])

/-- One store or network event of an attempt, in program order. -/
inductive StoreEvent
  | jobSave (j : Job)
  | ticketFind (tid : Nat)
  | credFind
  | credInc (cid : Nat)
  | ticketSave (t : Ticket)
  | netSend (usePort465 : Bool)
deriving DecidableEq, Repr

/-- Store collections touched by one attempt. -/
structure Stores where
  tickets : List Ticket
  creds : List EmailCredential
deriving DecidableEq, Repr

/-- State carried to the catch handler: the in-memory job document at
the throw site, the events already performed, the store state. -/
structure Mid where
  job : Job
  events : List StoreEvent
  stores : Stores
deriving DecidableEq, Repr

/-- Environment of one processEmailJob invocation: current time, the
store collections, the transport outcomes, and for each store-write
site whether it rejects (some message) or succeeds (none). -/
structure Env where
  now : Nat
  tickets : List Ticket
  creds : List EmailCredential
  primarySend : SendOutcome
  fallbackSend : SendOutcome
  claimSaveErr : Option String
  credIncErr : Option String
  completeSaveErr : Option String
  ticketSaveErr : Option String
  failSaveErr : Option String
deriving Repr

/-- findByIdAndUpdate with an atomic increment of daily_usage. -/
def incCredUsage (cs : List EmailCredential) (cid : Nat) : List EmailCredential :=
  cs.map (fun c => if c.id == cid then { c with daily_usage := c.daily_usage + 1 } else c)

/-- ticket.save: the document replaces the stored one with its id. -/
def updateTicketStore (ts : List Ticket) (t : Ticket) : List Ticket :=
  ts.map (fun x => if x.id == t.id then t else x)

/-- Try block of processEmailJob.  Mirrors the source order: claim save,
ticket-id check, Ticket.findById, EmailCredential.findOne, attachment
presence check, message composition, send with fallback, credential
usage increment, completed save, ticket save.  A thrown error is the
message together with the in-memory state at the throw site. -/
def tryProcess (job : Job) (env : Env) : Except (String × Mid) Mid :=
  match env.claimSaveErr with
  | some m =>
      Except.error (m,
        { job := claimJob job env.now, events := [],
          stores := { tickets := env.tickets, creds := env.creds } })
  | none =>
    match job.dataTicketId with
    | none =>
        Except.error ("Ticket ID not found in job data",
          { job := claimJob job env.now,
            events := [StoreEvent.jobSave (claimJob job env.now)],
            stores := { tickets := env.tickets, creds := env.creds } })
    | some tid =>
      match findTicket env.tickets tid with
      | none =>
          Except.error ("Ticket not found",
            { job := claimJob job env.now,
              events := [StoreEvent.jobSave (claimJob job env.now),
                         StoreEvent.ticketFind tid],
              stores := { tickets := env.tickets, creds := env.creds } })
      | some ticket =>
        match selectCredential env.creds with
        | none =>
            Except.error ("No available email credentials",
              { job := claimJob job env.now,
                events := [StoreEvent.jobSave (claimJob job env.now),
                           StoreEvent.ticketFind tid, StoreEvent.credFind],
                stores := { tickets := env.tickets, creds := env.creds } })
        | some cred =>
          if !(jsTruthy job.dataAttachmentBase64 && jsTruthy job.dataAttachmentFilename) then
            Except.error ("Attachment data missing in job",
              { job := claimJob job env.now,
                events := [StoreEvent.jobSave (claimJob job env.now),
                           StoreEvent.ticketFind tid, StoreEvent.credFind],
                stores := { tickets := env.tickets, creds := env.creds } })
          else
            match trySend cred env.primarySend env.fallbackSend with
            | (Except.error e, ports) =>
                Except.error (e.message,
                  { job := claimJob job env.now,
                    events := [StoreEvent.jobSave (claimJob job env.now),
                               StoreEvent.ticketFind tid, StoreEvent.credFind] ++
                              ports.map StoreEvent.netSend,
                    stores := { tickets := env.tickets, creds := env.creds } })
            | (Except.ok msgId, ports) =>
              match env.credIncErr with
              | some m =>
                  Except.error (m,
                    { job := claimJob job env.now,
                      events := [StoreEvent.jobSave (claimJob job env.now),
                                 StoreEvent.ticketFind tid, StoreEvent.credFind] ++
                                ports.map StoreEvent.netSend,
                      stores := { tickets := env.tickets, creds := env.creds } })
              | none =>
                match env.completeSaveErr with
                | some m =>
                    Except.error (m,
                      { job := { claimJob job env.now with
                                   status := JobStatus.completed,
                                   result := some { success := true, messageId := msgId },
                                   updated_at := env.now },
                        events := [StoreEvent.jobSave (claimJob job env.now),
                                   StoreEvent.ticketFind tid, StoreEvent.credFind] ++
                                  ports.map StoreEvent.netSend ++
                                  [StoreEvent.credInc cred.id],
                        stores := { tickets := env.tickets,
                                    creds := incCredUsage env.creds cred.id } })
                | none =>
                  match env.ticketSaveErr with
                  | some m =>
                      Except.error (m,
                        { job := { claimJob job env.now with
                                     status := JobStatus.completed,
                                     result := some { success := true, messageId := msgId },
                                     updated_at := env.now },
                          events := [StoreEvent.jobSave (claimJob job env.now),
                                     StoreEvent.ticketFind tid, StoreEvent.credFind] ++
                                    ports.map StoreEvent.netSend ++
                                    [StoreEvent.credInc cred.id,
                                     StoreEvent.jobSave
                                       { claimJob job env.now with
                                           status := JobStatus.completed,
                                           result := some { success := true, messageId := msgId },
                                           updated_at := env.now }],
                          stores := { tickets := env.tickets,
                                      creds := incCredUsage env.creds cred.id } })
                  | none =>
                      Except.ok
                        { job := { claimJob job env.now with
                                     status := JobStatus.completed,
                                     result := some { success := true, messageId := msgId },
                                     updated_at := env.now },
                          events := [StoreEvent.jobSave (claimJob job env.now),
                                     StoreEvent.ticketFind tid, StoreEvent.credFind] ++
                                    ports.map StoreEvent.netSend ++
                                    [StoreEvent.credInc cred.id,
                                     StoreEvent.jobSave
                                       { claimJob job env.now with
                                           status := JobStatus.completed,
                                           result := some { success := true, messageId := msgId },
                                           updated_at := env.now },
                                     StoreEvent.ticketSave { ticket with status := "sent" }],
                          stores := { tickets := updateTicketStore env.tickets
                                                   { ticket with status := "sent" },
                                      creds := incCredUsage env.creds cred.id } }

/-- Result of processEmailJob: the returned value (ok with the boolean,
or error when the failure-path save itself rejects and the exception
escapes), the final in-memory job document, the event trace and the
final store state. -/
structure ProcResult where
  ret : Except String Bool
  job : Job
  events : List StoreEvent
  stores : Stores
deriving Repr

/-- Catch handler of processEmailJob: record the error message, refresh
updated_at, failed when the already-incremented retries reached
maxRetries, else pending, then save. -/
def applyCatch (m : String) (mid : Mid) (env : Env) : ProcResult :=
  match env.failSaveErr with
  | some m2 =>
      { ret := Except.error m2
      , job := if mid.job.retries ≥ mid.job.maxRetries then
                 { mid.job with error := some m, updated_at := env.now,
                                status := JobStatus.failed }
               else
                 { mid.job with error := some m, updated_at := env.now,
                                status := JobStatus.pending }
      , events := mid.events
      , stores := mid.stores }
  | none =>
      { ret := Except.ok false
      , job := if mid.job.retries ≥ mid.job.maxRetries then
                 { mid.job with error := some m, updated_at := env.now,
                                status := JobStatus.failed }
               else
                 { mid.job with error := some m, updated_at := env.now,
                                status := JobStatus.pending }
      , events := (if mid.job.retries ≥ mid.job.maxRetries then
                     mid.events ++ [StoreEvent.jobSave
                       { mid.job with error := some m, updated_at := env.now,
                                      status := JobStatus.failed }]
                   else
                     mid.events ++ [StoreEvent.jobSave
                       { mid.job with error := some m, updated_at := env.now,
                                      status := JobStatus.pending }])
      , stores := mid.stores }

/-- processEmailJob: the try block, with every thrown error routed to
the catch handler. -/
def processEmailJob (job : Job) (env : Env) : ProcResult :=
  match tryProcess job env with
  | Except.ok mid =>
      { ret := Except.ok true, job := mid.job, events := mid.events, stores := mid.stores }
  | Except.error (m, mid) => applyCatch m mid env

/-- Filter of the poll query: job_type send_email, status pending,
retries below the literal ceiling 3. -/
def pollFilter (j : Job) : Bool :=
  j.job_type == "send_email" && decide (j.status = JobStatus.pending) &&
    decide (j.retries < 3)

/-- Sort key of the poll query: ascending created_at. -/
def createdLE (a b : Job) : Prop := a.created_at ≤ b.created_at

instance : DecidableRel createdLE := fun a b => Nat.decLe a.created_at b.created_at

instance : IsTotal Job createdLE := ⟨fun a b => Nat.le_total a.created_at b.created_at⟩

instance : IsTrans Job createdLE := ⟨fun _ _ _ h h2 => Nat.le_trans h h2⟩

/-- Candidate selection of pollJobs: filter, sort ascending by
created_at, limit 5. -/
def pollSelect (jobs : List Job) : List Job :=
  (List.insertionSort createdLE (jobs.filter pollFilter)).take 5

/-- Sequential batch loop of pollJobs: each job awaited in turn; an
exception escaping processEmailJob aborts the remaining batch. -/
def runBatch : List Job → (Nat → Env) → Nat → List (Except String Bool) × List StoreEvent
  | [], _, _ => ([], [])
  | j :: rest, envs, i =>
    match (processEmailJob j (envs i)).ret with
    | Except.ok b =>
      ((Except.ok b) :: (runBatch rest envs (i + 1)).fst,
       (processEmailJob j (envs i)).events ++ (runBatch rest envs (i + 1)).snd)
    | Except.error m => ([Except.error m], (processEmailJob j (envs i)).events)

/-- Environment of one poll cycle: whether the batch query itself
rejects, and the per-job environment of each processed position. -/
structure CycleEnv where
  queryErr : Option String
  jobEnvs : Nat → Env

/-- pollJobs: on a query error, log and return with no job touched;
otherwise process the selected batch sequentially. -/
def pollJobs (jobs : List Job) (cenv : CycleEnv) :
    List (Except String Bool) × List StoreEvent :=
  match cenv.queryErr with
  | some _ => ([], [])
  | none => runBatch (pollSelect jobs) cenv.jobEnvs 0

/-- Job documents written by a trace, in order. -/
def jobSaves (evs : List StoreEvent) : List Job :=
  evs.filterMap (fun e => match e with | StoreEvent.jobSave j => some j | _ => none)

/-- Number of credential-usage increments in a trace. -/
def credIncCount (evs : List StoreEvent) : Nat :=
  (evs.filter (fun e => match e with | StoreEvent.credInc _ => true | _ => false)).length

/-! Helper lemmas about traces. -/

@[simp]
theorem jobSaves_nil : jobSaves [] = [] := rfl

@[simp]
theorem jobSaves_cons_save (j : Job) (evs : List StoreEvent) :
    jobSaves (StoreEvent.jobSave j :: evs) = j :: jobSaves evs := rfl

@[simp]
theorem jobSaves_cons_ticketFind (tid : Nat) (evs : List StoreEvent) :
    jobSaves (StoreEvent.ticketFind tid :: evs) = jobSaves evs := rfl

@[simp]
theorem jobSaves_cons_credFind (evs : List StoreEvent) :
    jobSaves (StoreEvent.credFind :: evs) = jobSaves evs := rfl

@[simp]
theorem jobSaves_cons_credInc (cid : Nat) (evs : List StoreEvent) :
    jobSaves (StoreEvent.credInc cid :: evs) = jobSaves evs := rfl

@[simp]
theorem jobSaves_cons_ticketSave (t : Ticket) (evs : List StoreEvent) :
    jobSaves (StoreEvent.ticketSave t :: evs) = jobSaves evs := rfl

@[simp]
theorem jobSaves_cons_netSend (b : Bool) (evs : List StoreEvent) :
    jobSaves (StoreEvent.netSend b :: evs) = jobSaves evs := rfl

@[simp]
theorem jobSaves_append (a b : List StoreEvent) :
    jobSaves (a ++ b) = jobSaves a ++ jobSaves b := by
  simp [jobSaves, List.filterMap_append]

@[simp]
theorem jobSaves_map_netSend (ports : List Bool) :
    jobSaves (ports.map StoreEvent.netSend) = [] := by
  induction ports with
  | nil => rfl
  | cons p rest ih => simp [ih]

@[simp]
theorem credIncCount_nil : credIncCount [] = 0 := rfl

@[simp]
theorem credIncCount_cons_save (j : Job) (evs : List StoreEvent) :
    credIncCount (StoreEvent.jobSave j :: evs) = credIncCount evs := rfl

@[simp]
theorem credIncCount_cons_ticketFind (tid : Nat) (evs : List StoreEvent) :
    credIncCount (StoreEvent.ticketFind tid :: evs) = credIncCount evs := rfl

@[simp]
theorem credIncCount_cons_credFind (evs : List StoreEvent) :
    credIncCount (StoreEvent.credFind :: evs) = credIncCount evs := rfl

@[simp]
theorem credIncCount_cons_credInc (cid : Nat) (evs : List StoreEvent) :
    credIncCount (StoreEvent.credInc cid :: evs) = credIncCount evs + 1 := by
  simp [credIncCount, List.filter_cons, Nat.add_comm]

@[simp]
theorem credIncCount_cons_ticketSave (t : Ticket) (evs : List StoreEvent) :
    credIncCount (StoreEvent.ticketSave t :: evs) = credIncCount evs := rfl

@[simp]
theorem credIncCount_cons_netSend (b : Bool) (evs : List StoreEvent) :
    credIncCount (StoreEvent.netSend b :: evs) = credIncCount evs := rfl

@[simp]
theorem credIncCount_append (a b : List StoreEvent) :
    credIncCount (a ++ b) = credIncCount a + credIncCount b := by
  simp [credIncCount, List.filter_append]

@[simp]
theorem credIncCount_map_netSend (ports : List Bool) :
    credIncCount (ports.map StoreEvent.netSend) = 0 := by
  induction ports with
  | nil => rfl
  | cons p rest ih => simp [ih]

/-- The attempt list of trySend is the primary alone or primary then
fallback. -/
theorem trySend_ports (cred : EmailCredential) (p f : SendOutcome) :
    (trySend cred p f).snd = [false] ∨ (trySend cred p f).snd = [false, true] := by
  unfold trySend
  cases p with
  | ok m => simp
  | err e =>
    by_cases hc : e.code = some "ETIMEDOUT" ∧ cred.smtp_port = 587
    · simp only [hc, if_true]
      cases f <;> simp
    · simp [hc]

/-- Whenever the try block throws, the in-memory job carried to the
catch handler already has the incremented retries and the original
maxRetries and id. -/
theorem tryProcess_error_inv (job : Job) (env : Env) (m : String) (mid : Mid)
    (h : tryProcess job env = Except.error (m, mid)) :
    mid.job.retries = job.retries + 1 ∧ mid.job.maxRetries = job.maxRetries ∧
    mid.job.id = job.id := by
  unfold tryProcess at h
  repeat' split at h
  all_goals first
    | exact Except.noConfusion h
    | (injection h with h2; injection h2 with hm hmid; subst hmid; exact ⟨rfl, rfl, rfl⟩)

/-- If the claim save succeeded and the ticket save did not throw, the
trace at any throw site starts with the claim write and holds no other
job write. -/
theorem tryProcess_error_events (job : Job) (env : Env) (m : String) (mid : Mid)
    (h1 : env.claimSaveErr = none) (h4 : env.ticketSaveErr = none)
    (h : tryProcess job env = Except.error (m, mid)) :
    ∃ tail, mid.events = StoreEvent.jobSave (claimJob job env.now) :: tail ∧
      jobSaves tail = [] := by
  unfold tryProcess at h
  simp only [h1, h4] at h
  repeat' split at h
  all_goals first
    | exact Except.noConfusion h
    | (injection h with h2; injection h2 with hm hmid; subst hmid;
       exact ⟨_, rfl, by simp⟩)

/-- With a functioning failure-path save, processEmailJob always
returns a boolean: no exception escapes the Job State Machine. -/
theorem processEmailJob_ok_of_failSave (job : Job) (env : Env)
    (h : env.failSaveErr = none) :
    ∃ b, (processEmailJob job env).ret = Except.ok b := by
  unfold processEmailJob
  cases htp : tryProcess job env with
  | ok mid => exact ⟨true, rfl⟩
  | error p =>
    obtain ⟨m, mid⟩ := p
    unfold applyCatch
    rw [h]
    exact ⟨false, rfl⟩

/-! Concrete fixtures used by witnesses. -/

/-- A ticket on file. -/
def ticketW : Ticket :=
  { id := 1, ticket_number := "T-001", eventName := some "DevFest",
    status := "generated", detailsName := some "Kira",
    detailsEmail := some "kira@example.com" }

/-- An active credential with remaining quota, configured for port 587. -/
def credW : EmailCredential :=
  { id := 7, name := "main", email := "noreply@example.com",
    smtp_server := "smtp.example.com", smtp_port := 587,
    username := "noreply", password := "pw",
    is_active := true, daily_limit := some 100, daily_usage := 3 }

/-- A fresh pending send_email job referencing ticketW, with an inline
attachment and no optional content fields. -/
def jobW : Job :=
  { id := 42, job_type := "send_email", dataTicketId := some 1,
    dataAttachmentBase64 := some "QUJD", dataAttachmentFilename := some "ticket.png",
    dataFromName := none, dataRecipientEmail := none, dataSubject := none,
    dataTextBody := none, dataHtmlBody := none,
    status := JobStatus.pending, result := none, error := none,
    retries := 0, maxRetries := 3, created_at := 10, updated_at := 10 }

/-- Same job without a ticket reference in its payload. -/
def jobNoTid : Job := { jobW with dataTicketId := none }

/-- An environment where the store works and the primary send succeeds. -/
def envOkW : Env :=
  { now := 20, tickets := [ticketW], creds := [credW],
    primarySend := SendOutcome.ok "msg-1", fallbackSend := SendOutcome.ok "msg-2",
    claimSaveErr := none, credIncErr := none, completeSaveErr := none,
    ticketSaveErr := none, failSaveErr := none }

/-- A connection-timeout transport error. -/
def errTimeout : SendError := { code := some "ETIMEDOUT", message := "connect ETIMEDOUT" }

/-- An authentication transport error (non-timeout class). -/
def errAuth : SendError := { code := some "EAUTH", message := "Invalid login" }

/-! Claim theorems. -/

/-- C2: for every credential and delivery attempt, the fallback
transport (usePort465, implicit TLS) is attempted iff the primary send
fails with an ETIMEDOUT error and the credential's configured port is
587; it is attempted at most once within the attempt, the primary
attempt always comes first, any other primary error class propagates
with no fallback, and a failure of the fallback itself propagates with
no further fallback. -/
theorem claim2_fallback_rule (cred : EmailCredential) (primary fallback : SendOutcome) :
    ((true ∈ (trySend cred primary fallback).snd) ↔
      (∃ e, primary = SendOutcome.err e ∧ e.code = some "ETIMEDOUT" ∧
        cred.smtp_port = 587)) ∧
    (trySend cred primary fallback).snd.count true ≤ 1 ∧
    (trySend cred primary fallback).snd.head? = some false ∧
    (∀ e, primary = SendOutcome.err e →
      ¬(e.code = some "ETIMEDOUT" ∧ cred.smtp_port = 587) →
      (trySend cred primary fallback).fst = Except.error e ∧
      (trySend cred primary fallback).snd = [false]) ∧
    (∀ e e2, primary = SendOutcome.err e → e.code = some "ETIMEDOUT" →
      cred.smtp_port = 587 → fallback = SendOutcome.err e2 →
      (trySend cred primary fallback).fst = Except.error e2 ∧
      (trySend cred primary fallback).snd = [false, true]) := by
  cases primary with
  | ok m =>
    refine ⟨by simp [trySend], by simp [trySend], by simp [trySend], ?_, ?_⟩
    · intro e he _hne; exact SendOutcome.noConfusion he
    · intro e e2 he _ _ _; exact SendOutcome.noConfusion he
  | err e =>
    by_cases hc : e.code = some "ETIMEDOUT" ∧ cred.smtp_port = 587
    · cases fallback with
      | ok m2 =>
        refine ⟨by simp [trySend, hc.1, hc.2], by simp [trySend, hc.1, hc.2],
          by simp [trySend, hc.1, hc.2], ?_, ?_⟩
        · intro e' he' hne; injection he' with h3; subst h3; exact absurd hc hne
        · intro e' e2' _ _ _ hf; exact SendOutcome.noConfusion hf
      | err e2 =>
        refine ⟨by simp [trySend, hc.1, hc.2], by simp [trySend, hc.1, hc.2],
          by simp [trySend, hc.1, hc.2], ?_, ?_⟩
        · intro e' he' hne; injection he' with h3; subst h3; exact absurd hc hne
        · intro e' e2' he' _ _ hf
          injection he' with h3; subst h3
          injection hf with h4; subst h4
          refine ⟨?_, ?_⟩ <;> simp [trySend, hc.1, hc.2]
    · refine ⟨by simp [trySend, hc], by simp [trySend, hc], by simp [trySend, hc], ?_, ?_⟩
      · intro e' he' _hne
        injection he' with h3; subst h3
        refine ⟨?_, ?_⟩ <;> simp [trySend, hc]
      · intro e' e2' he' hcode hport _hf
        injection he' with h3; subst h3
        exact absurd ⟨hcode, hport⟩ hc

/-- C2 witness: a timeout on a port-587 credential triggers the
fallback; an authentication error propagates with a single attempt. -/
theorem claim2_fallback_rule_witness :
    (true ∈ (trySend credW (SendOutcome.err errTimeout) (SendOutcome.ok "msg-2")).snd) ∧
    (trySend credW (SendOutcome.err errAuth) (SendOutcome.ok "msg-2")).fst =
      Except.error errAuth ∧
    (trySend credW (SendOutcome.err errAuth) (SendOutcome.ok "msg-2")).snd = [false] := by
  refine ⟨?_, ?_, ?_⟩
  · exact (claim2_fallback_rule credW (SendOutcome.err errTimeout)
      (SendOutcome.ok "msg-2")).1.mpr ⟨errTimeout, rfl, rfl, rfl⟩
  · exact ((claim2_fallback_rule credW (SendOutcome.err errAuth)
      (SendOutcome.ok "msg-2")).2.2.2.1 errAuth rfl (by simp [errAuth])).1
  · exact ((claim2_fallback_rule credW (SendOutcome.err errAuth)
      (SendOutcome.ok "msg-2")).2.2.2.1 errAuth rfl (by simp [errAuth])).2

/-- A falsy optional string field makes the JavaScript or-default take
the default. -/
theorem jsOr_of_falsy (a : Option String) (d : String) (h : jsTruthy a = false) :
    jsOr a d = d := by
  cases a with
  | none => rfl
  | some s =>
    simp [jsTruthy] at h
    simp [jsOr, h]

/-- C9: message composition: the subject defaults to the templated
Your Ticket for the event name when absent from job data, the body
defaults to the generic fallback text, the from-name defaults to Admin
when absent, and the recipient is the job-specified address when
present, else the ticket's stored address. -/
theorem claim9_compose_defaults (job : Job) (ticket : Ticket) (cred : EmailCredential) :
    (jsTruthy job.dataSubject = false →
      (composeEmail job ticket cred).subject =
        "Your Ticket for " ++ jsOr ticket.eventName "Event") ∧
    (jsTruthy job.dataTextBody = false →
      (composeEmail job ticket cred).text = "Your ticket is attached.") ∧
    (jsTruthy job.dataFromName = false →
      (composeEmail job ticket cred).fromField = "\"Admin\" <" ++ cred.email ++ ">") ∧
    (jsTruthy job.dataRecipientEmail = true →
      (composeEmail job ticket cred).toField = job.dataRecipientEmail) ∧
    (jsTruthy job.dataRecipientEmail = false →
      (composeEmail job ticket cred).toField = ticket.detailsEmail) := by
  refine ⟨?_, ?_, ?_, ?_, ?_⟩
  · intro h
    simp only [composeEmail]
    rw [jsOr_of_falsy job.dataSubject _ h]
  · intro h
    simp only [composeEmail]
    rw [jsOr_of_falsy job.dataTextBody _ h]
  · intro h
    simp only [composeEmail]
    rw [jsOr_of_falsy job.dataFromName _ h]
    rfl
  · intro h
    simp [composeEmail, h]
  · intro h
    simp [composeEmail, h]

/-- C9 witness: on the concrete fixtures with no optional content
fields, the defaults and the ticket's stored recipient are used. -/
theorem claim9_compose_defaults_witness :
    (composeEmail jobW ticketW credW).subject = "Your Ticket for DevFest" ∧
    (composeEmail jobW ticketW credW).text = "Your ticket is attached." ∧
    (composeEmail jobW ticketW credW).fromField = "\"Admin\" <noreply@example.com>" ∧
    (composeEmail jobW ticketW credW).toField = some "kira@example.com" := by
  refine ⟨?_, (claim9_compose_defaults jobW ticketW credW).2.1 rfl, ?_, ?_⟩
  · rw [(claim9_compose_defaults jobW ticketW credW).1 rfl]; rfl
  · rw [(claim9_compose_defaults jobW ticketW credW).2.2.1 rfl]; rfl
  · rw [(claim9_compose_defaults jobW ticketW credW).2.2.2.2 rfl]; rfl

/-- C1: whenever an attempt of processEmailJob fails (the try block
throws with message m) and the failure-path save succeeds, the job's
error field is set to that message, the status becomes failed when the
post-increment retries reached maxRetries and pending otherwise, the
updated job document is persisted, and processEmailJob returns false. -/
theorem claim1_failure_commit (job : Job) (env : Env) (m : String) (mid : Mid)
    (hsave : env.failSaveErr = none)
    (hfail : tryProcess job env = Except.error (m, mid)) :
    (processEmailJob job env).ret = Except.ok false ∧
    (processEmailJob job env).job.error = some m ∧
    (processEmailJob job env).job.retries = job.retries + 1 ∧
    (processEmailJob job env).job.status =
      (if job.retries + 1 ≥ job.maxRetries then JobStatus.failed
       else JobStatus.pending) ∧
    StoreEvent.jobSave (processEmailJob job env).job ∈ (processEmailJob job env).events := by
  obtain ⟨hr, hmax, _⟩ := tryProcess_error_inv job env m mid hfail
  unfold processEmailJob
  rw [hfail]
  unfold applyCatch
  rw [hsave]
  by_cases hge : job.retries + 1 ≥ job.maxRetries
  · simp [hge, hr, hmax]
  · simp [hge, hr, hmax]

/-- C1 witness: a job whose payload lacks the ticket id fails its
attempt; with retries going from 0 to 1 below maxRetries 3 it returns
to pending with the error recorded, and the result is false. -/
theorem claim1_failure_commit_witness :
    (processEmailJob jobNoTid envOkW).ret = Except.ok false ∧
    (processEmailJob jobNoTid envOkW).job.error =
      some "Ticket ID not found in job data" ∧
    (processEmailJob jobNoTid envOkW).job.retries = 1 ∧
    (processEmailJob jobNoTid envOkW).job.status = JobStatus.pending := by
  have h := claim1_failure_commit jobNoTid envOkW "Ticket ID not found in job data"
    { job := claimJob jobNoTid 20,
      events := [StoreEvent.jobSave (claimJob jobNoTid 20)],
      stores := { tickets := [ticketW], creds := [credW] } } rfl rfl
  refine ⟨h.1, h.2.1, h.2.2.1, ?_⟩
  rw [h.2.2.2.1]
  decide

/-- C5: credential selection returns only active credentials with
unset/null daily_limit or daily_usage below daily_limit; and when no
eligible credential exists (with the store saves working and retry
budget remaining), the attempt fails retryably: the job returns to
pending with the error No available email credentials and retries
incremented by 1. -/
theorem claim5_credential_selection :
    (∀ (creds : List EmailCredential) (c : EmailCredential),
      selectCredential creds = some c →
        c.is_active = true ∧
        (c.daily_limit = none ∨ ∃ l, c.daily_limit = some l ∧ c.daily_usage < l)) ∧
    (∀ (job : Job) (env : Env) (tid : Nat) (ticket : Ticket),
      env.claimSaveErr = none → env.failSaveErr = none →
      job.dataTicketId = some tid →
      findTicket env.tickets tid = some ticket →
      selectCredential env.creds = none →
      job.retries + 1 < job.maxRetries →
      (processEmailJob job env).ret = Except.ok false ∧
      (processEmailJob job env).job.status = JobStatus.pending ∧
      (processEmailJob job env).job.error = some "No available email credentials" ∧
      (processEmailJob job env).job.retries = job.retries + 1) := by
  constructor
  · intro creds c h
    have hp := List.find?_some h
    unfold credentialEligible at hp
    rw [Bool.and_eq_true] at hp
    refine ⟨hp.1, ?_⟩
    rcases hl : c.daily_limit with _ | l
    · exact Or.inl rfl
    · right
      refine ⟨l, rfl, ?_⟩
      have := hp.2
      rw [hl] at this
      simpa using this
  · intro job env tid ticket h1 h5 htid hft hsel hlt
    have htp : tryProcess job env =
        Except.error ("No available email credentials",
          { job := claimJob job env.now,
            events := [StoreEvent.jobSave (claimJob job env.now),
                       StoreEvent.ticketFind tid, StoreEvent.credFind],
            stores := { tickets := env.tickets, creds := env.creds } }) := by
      simp only [tryProcess, h1, htid, hft, hsel]
    have hc : ¬(job.maxRetries ≤ job.retries + 1) := by omega
    simp only [processEmailJob, htp, applyCatch, h5]
    simp [hc, claimJob]

/-- C5 witness: an exhausted credential pool (one credential at its
daily limit) sends the fresh job back to pending with the error
recorded and one retry consumed; and selection on a pool whose first
eligible entry is credW returns an active under-quota credential. -/
theorem claim5_credential_selection_witness :
    ((processEmailJob jobW
        { envOkW with creds := [{ credW with daily_usage := 100 }] }).ret =
      Except.ok false ∧
     (processEmailJob jobW
        { envOkW with creds := [{ credW with daily_usage := 100 }] }).job.status =
      JobStatus.pending ∧
     (processEmailJob jobW
        { envOkW with creds := [{ credW with daily_usage := 100 }] }).job.error =
      some "No available email credentials" ∧
     (processEmailJob jobW
        { envOkW with creds := [{ credW with daily_usage := 100 }] }).job.retries = 1) ∧
    (credW.is_active = true ∧
      (credW.daily_limit = none ∨
        ∃ l, credW.daily_limit = some l ∧ credW.daily_usage < l)) := by
  constructor
  · exact claim5_credential_selection.2 jobW
      { envOkW with creds := [{ credW with daily_usage := 100 }] } 1 ticketW
      rfl rfl rfl rfl (by decide) (by decide)
  · exact claim5_credential_selection.1 [credW] credW (by decide)

/-- C3: with the store writes succeeding, the claim write (processing,
retries incremented, updated_at refreshed) is the very first store or
network event of the attempt — it precedes every read and every network
send — and the job document is written exactly twice, claim write first
and a single terminal-transition write second; no terminal write
precedes the claim write. -/
theorem claim3_claim_write_before_work (job : Job) (env : Env)
    (h1 : env.claimSaveErr = none) (h2 : env.credIncErr = none)
    (h3 : env.completeSaveErr = none) (h4 : env.ticketSaveErr = none)
    (h5 : env.failSaveErr = none) :
    (processEmailJob job env).events.head? =
      some (StoreEvent.jobSave (claimJob job env.now)) ∧
    ∃ t, jobSaves (processEmailJob job env).events = [claimJob job env.now, t] ∧
      (t.status = JobStatus.completed ∨ t.status = JobStatus.pending ∨
       t.status = JobStatus.failed) := by
  unfold processEmailJob
  cases htp : tryProcess job env with
  | ok mid =>
    unfold tryProcess at htp
    simp only [h1, h2, h3, h4] at htp
    repeat' split at htp
    all_goals try exact Except.noConfusion htp
    injection htp with hmid
    subst hmid
    refine ⟨by simp, ?_⟩
    simp only [jobSaves_cons_save, jobSaves_cons_ticketFind, jobSaves_cons_credFind,
      jobSaves_cons_credInc, jobSaves_cons_ticketSave, jobSaves_cons_netSend,
      jobSaves_append, jobSaves_map_netSend, jobSaves_nil,
      List.cons_append, List.nil_append, List.append_nil, List.singleton_append]
    exact ⟨_, rfl, Or.inl rfl⟩
  | error p =>
    obtain ⟨m, mid⟩ := p
    obtain ⟨tail, hev, htail⟩ := tryProcess_error_events job env m mid h1 h4 htp
    unfold applyCatch
    simp only [h5]
    by_cases hge : mid.job.retries ≥ mid.job.maxRetries
    · exact ⟨by simp [hge, hev],
        { mid.job with error := some m, updated_at := env.now,
                       status := JobStatus.failed },
        by simp [hge, hev, htail], Or.inr (Or.inr rfl)⟩
    · exact ⟨by simp [hge, hev],
        { mid.job with error := some m, updated_at := env.now,
                       status := JobStatus.pending },
        by simp [hge, hev, htail], Or.inr (Or.inl rfl)⟩

/-- C3 witness: on the concrete success fixture the first event is the
claim write and the job writes are exactly the claim write and one
terminal write. -/
theorem claim3_claim_write_before_work_witness :
    (processEmailJob jobW envOkW).events.head? =
      some (StoreEvent.jobSave (claimJob jobW 20)) ∧
    ∃ t, jobSaves (processEmailJob jobW envOkW).events = [claimJob jobW 20, t] ∧
      (t.status = JobStatus.completed ∨ t.status = JobStatus.pending ∨
       t.status = JobStatus.failed) :=
  claim3_claim_write_before_work jobW envOkW rfl rfl rfl rfl rfl

/-- C4: whenever processEmailJob returns true, the selected
credential's daily_usage was incremented by exactly 1 (exactly one
increment even when the send went through the fallback port), the job
was persisted as completed with result success true and the transport
message id, and the referenced ticket was persisted with status sent. -/
theorem claim4_success_commit (job : Job) (env : Env)
    (h : (processEmailJob job env).ret = Except.ok true) :
    ∃ cred msgId tid ticket,
      job.dataTicketId = some tid ∧
      findTicket env.tickets tid = some ticket ∧
      selectCredential env.creds = some cred ∧
      cred ∈ env.creds ∧
      (processEmailJob job env).stores.creds = incCredUsage env.creds cred.id ∧
      { cred with daily_usage := cred.daily_usage + 1 } ∈
        (processEmailJob job env).stores.creds ∧
      credIncCount (processEmailJob job env).events = 1 ∧
      (processEmailJob job env).job.status = JobStatus.completed ∧
      (processEmailJob job env).job.result =
        some { success := true, messageId := msgId } ∧
      StoreEvent.jobSave (processEmailJob job env).job ∈
        (processEmailJob job env).events ∧
      StoreEvent.ticketSave { ticket with status := "sent" } ∈
        (processEmailJob job env).events ∧
      (processEmailJob job env).stores.tickets =
        updateTicketStore env.tickets { ticket with status := "sent" } := by
  cases htp : tryProcess job env with
  | error p =>
    obtain ⟨m, mid⟩ := p
    exfalso
    simp only [processEmailJob, htp] at h
    cases hf : env.failSaveErr <;> simp [applyCatch, hf] at h
  | ok mid =>
    have hre : processEmailJob job env =
        { ret := Except.ok true, job := mid.job, events := mid.events,
          stores := mid.stores } := by
      simp only [processEmailJob, htp]
    rw [hre]
    simp only [tryProcess] at htp
    cases h1 : env.claimSaveErr with
    | some m =>
      simp only [h1] at htp
      exact Except.noConfusion htp
    | none =>
    simp only [h1] at htp
    cases htid : job.dataTicketId with
    | none =>
      simp only [htid] at htp
      exact Except.noConfusion htp
    | some tid =>
    simp only [htid] at htp
    cases hft : findTicket env.tickets tid with
    | none =>
      simp only [hft] at htp
      exact Except.noConfusion htp
    | some ticket =>
    simp only [hft] at htp
    cases hsel : selectCredential env.creds with
    | none =>
      simp only [hsel] at htp
      exact Except.noConfusion htp
    | some cred =>
    simp only [hsel] at htp
    cases hatt : (!(jsTruthy job.dataAttachmentBase64 &&
        jsTruthy job.dataAttachmentFilename)) with
    | true => simp [hatt] at htp
    | false =>
    simp only [hatt, Bool.false_eq_true, if_false] at htp
    rcases hts : trySend cred env.primarySend env.fallbackSend with ⟨res, ports⟩
    cases res with
    | error e =>
      simp only [hts] at htp
      exact Except.noConfusion htp
    | ok msgId =>
    simp only [hts] at htp
    cases h2 : env.credIncErr with
    | some m =>
      simp only [h2] at htp
      exact Except.noConfusion htp
    | none =>
    simp only [h2] at htp
    cases h3 : env.completeSaveErr with
    | some m =>
      simp only [h3] at htp
      exact Except.noConfusion htp
    | none =>
    simp only [h3] at htp
    cases h4 : env.ticketSaveErr with
    | some m =>
      simp only [h4] at htp
      exact Except.noConfusion htp
    | none =>
    simp only [h4] at htp
    injection htp with hmid
    subst hmid
    have hm : cred ∈ env.creds := List.mem_of_find?_eq_some hsel
    refine ⟨cred, msgId, tid, ticket, rfl, hft, rfl, hm, rfl, ?_, by simp,
      rfl, rfl, by simp, by simp, rfl⟩
    have hmem := List.mem_map_of_mem
      (fun c => if c.id == cred.id then
        { c with daily_usage := c.daily_usage + 1 } else c) hm
    unfold incCredUsage
    simpa using hmem

/-- C4 witness: on the concrete success fixture exactly one credential
increment happens and the job completes. -/
theorem claim4_success_commit_witness :
    credIncCount (processEmailJob jobW envOkW).events = 1 ∧
    (processEmailJob jobW envOkW).job.status = JobStatus.completed := by
  obtain ⟨cred, msgId, tid, ticket, _, _, _, _, _, _, hcount, hstatus, _⟩ :=
    claim4_success_commit jobW envOkW rfl
  exact ⟨hcount, hstatus⟩

/-- A job at 3 recorded retries with a maxRetries ceiling of 5: the
spec's poll predicate (retries below the job's maxRetries) accepts it,
the code's poll query (retries below the literal 3) does not. -/
def jobCE : Job :=
  { jobW with id := 43, retries := 3, maxRetries := 5 }

/-- C6 counterexample: the poll query filters on the hardcoded ceiling
3, not on the job's own maxRetries field: a pending send_email job with
retries 3 and maxRetries 5 satisfies the claim's predicate
(retries below maxRetries) yet is never selected by pollSelect. -/
theorem claim6_poll_query_counterexample :
    jobCE.job_type = "send_email" ∧ jobCE.status = JobStatus.pending ∧
    jobCE.retries < jobCE.maxRetries ∧
    pollSelect [jobCE] = [] := by
  refine ⟨rfl, rfl, by decide, ?_⟩
  rfl

/-- C6 amended: each poll cycle selects exactly the jobs with job_type
send_email, status pending and retries below the literal ceiling 3 (the
job's own maxRetries field is not consulted), orders them by ascending
creation time (this schema variant has no priority field, so pure
FIFO), and processes at most 5 jobs per cycle. -/
theorem claim6_poll_query_amended (jobs : List Job) :
    (∀ j, j ∈ pollSelect jobs →
      j ∈ jobs ∧ j.job_type = "send_email" ∧ j.status = JobStatus.pending ∧
      j.retries < 3) ∧
    (pollSelect jobs).length ≤ 5 ∧
    List.Sorted createdLE (pollSelect jobs) ∧
    ((jobs.filter pollFilter).length ≤ 5 →
      ∀ j, j ∈ jobs → pollFilter j = true → j ∈ pollSelect jobs) := by
  refine ⟨?_, ?_, ?_, ?_⟩
  · intro j hj
    have hj2 : j ∈ jobs.filter pollFilter := by
      have := List.mem_of_mem_take hj
      rwa [List.mem_insertionSort] at this
    rw [List.mem_filter] at hj2
    have hp := hj2.2
    unfold pollFilter at hp
    simp only [Bool.and_eq_true, beq_iff_eq, decide_eq_true_eq] at hp
    exact ⟨hj2.1, hp.1.1, hp.1.2, hp.2⟩
  · exact List.length_take_le 5 _
  · exact List.Pairwise.sublist (List.take_sublist 5 _)
      (List.sorted_insertionSort createdLE _)
  · intro hlen j hj hp
    unfold pollSelect
    rw [List.take_of_length_le]
    · rw [List.mem_insertionSort, List.mem_filter]
      exact ⟨hj, hp⟩
    · rw [List.length_insertionSort]
      exact hlen

/-- C6 amended witness: a single fresh pending job is selected by the
poll cycle. -/
theorem claim6_poll_query_amended_witness :
    jobW ∈ pollSelect [jobW] ∧ (pollSelect [jobW]).length ≤ 5 :=
  ⟨(claim6_poll_query_amended [jobW]).2.2.2 (by decide)
      jobW (by simp) (by decide),
   (claim6_poll_query_amended [jobW]).2.1⟩

/-- Every selected job has status pending. -/
theorem pollSelect_status (jobs : List Job) (p : Job)
    (hp : p ∈ pollSelect jobs) : p.status = JobStatus.pending := by
  have h2 : p ∈ jobs.filter pollFilter := by
    have := List.mem_of_mem_take hp
    rwa [List.mem_insertionSort] at this
  rw [List.mem_filter] at h2
  have hp2 := h2.2
  unfold pollFilter at hp2
  simp only [Bool.and_eq_true, decide_eq_true_eq] at hp2
  exact hp2.1.2

/-- On the success path every job document written carries the id of
the processed job. -/
theorem tryProcess_ok_save_ids (job : Job) (env : Env) (mid : Mid)
    (h : tryProcess job env = Except.ok mid) :
    ∀ j2, StoreEvent.jobSave j2 ∈ mid.events → j2.id = job.id := by
  unfold tryProcess at h
  repeat' split at h
  all_goals first
    | exact Except.noConfusion h
    | (injection h with hmid; subst hmid; intro j2 hj2; simp [claimJob] at hj2)
  all_goals try casesm* _ ∨ _
  all_goals try subst_vars
  all_goals rfl

/-- On every failure path every job document written before the throw
carries the id of the processed job. -/
theorem tryProcess_error_save_ids (job : Job) (env : Env) (m : String) (mid : Mid)
    (h : tryProcess job env = Except.error (m, mid)) :
    ∀ j2, StoreEvent.jobSave j2 ∈ mid.events → j2.id = job.id := by
  unfold tryProcess at h
  repeat' split at h
  all_goals first
    | exact Except.noConfusion h
    | (injection h with h2; injection h2 with hm hmid; subst hmid;
       intro j2 hj2; simp [claimJob] at hj2)
  all_goals try casesm* _ ∨ _
  all_goals try subst_vars
  all_goals rfl

/-- Every job document written by processEmailJob carries the id of the
processed job: the state machine never writes another job's document. -/
theorem processEmailJob_save_ids (job : Job) (env : Env) :
    ∀ j2, StoreEvent.jobSave j2 ∈ (processEmailJob job env).events →
      j2.id = job.id := by
  intro j2 hj2
  cases htp : tryProcess job env with
  | ok mid =>
    simp only [processEmailJob, htp] at hj2
    exact tryProcess_ok_save_ids job env mid htp j2 hj2
  | error p =>
    obtain ⟨m, mid⟩ := p
    obtain ⟨_, _, hid⟩ := tryProcess_error_inv job env m mid htp
    simp only [processEmailJob, htp] at hj2
    unfold applyCatch at hj2
    cases hf : env.failSaveErr with
    | some m2 =>
      simp only [hf] at hj2
      exact tryProcess_error_save_ids job env m mid htp j2 hj2
    | none =>
      simp only [hf] at hj2
      by_cases hge : mid.job.retries ≥ mid.job.maxRetries
      · simp only [if_pos hge] at hj2
        rw [List.mem_append] at hj2
        rcases hj2 with hj2 | hj2
        · exact tryProcess_error_save_ids job env m mid htp j2 hj2
        · simp at hj2
          subst hj2
          exact hid
      · simp only [if_neg hge] at hj2
        rw [List.mem_append] at hj2
        rcases hj2 with hj2 | hj2
        · exact tryProcess_error_save_ids job env m mid htp j2 hj2
        · simp at hj2
          subst hj2
          exact hid

/-- C8: terminal states are sticky: a completed or failed job is never
selected by the poll query (which selects only pending jobs), and
processing a selected job only ever writes job documents with that
job's id, so no operation of the worker mutates a terminal job. -/
theorem claim8_terminal_sticky (jobs : List Job) (j : Job)
    (hterm : j.status = JobStatus.completed ∨ j.status = JobStatus.failed) :
    j ∉ pollSelect jobs ∧
    (∀ p, p ∈ pollSelect jobs → p.status = JobStatus.pending) ∧
    (∀ p (env : Env) (j2 : Job), p ∈ pollSelect jobs →
      StoreEvent.jobSave j2 ∈ (processEmailJob p env).events → j2.id = p.id) := by
  refine ⟨?_, pollSelect_status jobs, ?_⟩
  · intro hmem
    have hpend := pollSelect_status jobs j hmem
    rcases hterm with h | h <;> rw [h] at hpend <;> exact JobStatus.noConfusion hpend
  · intro p env j2 _ hsave
    exact processEmailJob_save_ids p env j2 hsave

/-- A job already completed. -/
def jobDone : Job := { jobW with status := JobStatus.completed }

/-- C8 witness: the completed fixture job is not selected, and any
selected job of the singleton pending store is pending. -/
theorem claim8_terminal_sticky_witness :
    jobDone ∉ pollSelect [jobDone] ∧
    (∀ p, p ∈ pollSelect [jobDone] → p.status = JobStatus.pending) :=
  ⟨(claim8_terminal_sticky [jobDone] jobDone (Or.inl rfl)).1,
   (claim8_terminal_sticky [jobDone] jobDone (Or.inl rfl)).2.1⟩

/-- An environment where the referenced ticket is missing and the
failure-path save itself rejects. -/
def envFailSaveW : Env :=
  { envOkW with tickets := [], failSaveErr := some "store write failed" }

/-- C7 counterexample: a per-job error is not always contained: when
the catch handler's own save rejects, the exception escapes
processEmailJob (its result is an error, not a boolean), and in a batch
the remaining jobs are skipped: of a two-job batch only one result is
produced. -/
theorem claim7_error_containment_counterexample :
    (processEmailJob jobW envFailSaveW).ret = Except.error "store write failed" ∧
    (runBatch [jobW, { jobW with id := 44 }] (fun _ => envFailSaveW) 0).fst =
      [Except.error "store write failed"] := by
  constructor <;> rfl

/-- C7 amended: per-job errors raised in the try block are caught and
converted into job state, and processEmailJob returns a boolean,
provided the failure-path save itself succeeds (with it, a whole batch
is processed to completion, one boolean per job); a batch-query error
makes the cycle return with no job processed and no event issued. -/
theorem claim7_error_containment_amended :
    (∀ (job : Job) (env : Env), env.failSaveErr = none →
      ∃ b, (processEmailJob job env).ret = Except.ok b) ∧
    (∀ (jobs : List Job) (cenv : CycleEnv) (m : String),
      cenv.queryErr = some m → pollJobs jobs cenv = ([], [])) ∧
    (∀ (js : List Job) (envs : Nat → Env) (i : Nat),
      (∀ k, (envs k).failSaveErr = none) →
      ((runBatch js envs i).fst).length = js.length) := by
  refine ⟨processEmailJob_ok_of_failSave, ?_, ?_⟩
  · intro jobs cenv m hq
    simp only [pollJobs, hq]
  · intro js envs i hall
    induction js generalizing i with
    | nil => rfl
    | cons j rest ih =>
      obtain ⟨b, hb⟩ := processEmailJob_ok_of_failSave j (envs i) (hall i)
      simp only [runBatch, hb]
      simp [ih (i + 1)]

/-- C7 amended witness: with a working store the concrete job yields a
boolean, and a failing batch query yields an untouched cycle. -/
theorem claim7_error_containment_amended_witness :
    (∃ b, (processEmailJob jobW envOkW).ret = Except.ok b) ∧
    pollJobs [jobW] { queryErr := some "query failed", jobEnvs := fun _ => envOkW } =
      ([], []) :=
  ⟨claim7_error_containment_amended.1 jobW envOkW rfl,
   claim7_error_containment_amended.2.1 [jobW]
     { queryErr := some "query failed", jobEnvs := fun _ => envOkW }
     "query failed" rfl⟩

/-- Catch-handler commit: whenever the try block throws with message m
and the failure-path save succeeds, processEmailJob returns false with
the error recorded, the status moved to pending or failed, and the
events of the throw site preserved as a prefix. -/
theorem catch_commit (job : Job) (env : Env) (m : String) (mid : Mid)
    (h5 : env.failSaveErr = none)
    (hfail : tryProcess job env = Except.error (m, mid)) :
    (processEmailJob job env).ret = Except.ok false ∧
    (processEmailJob job env).job.error = some m ∧
    ((processEmailJob job env).job.status = JobStatus.pending ∨
     (processEmailJob job env).job.status = JobStatus.failed) ∧
    ∃ tail, (processEmailJob job env).events = mid.events ++ tail := by
  simp only [processEmailJob, hfail]
  unfold applyCatch
  simp only [h5]
  by_cases hge : mid.job.retries ≥ mid.job.maxRetries
  · simp only [if_pos hge]
    exact ⟨trivial, trivial, Or.inr trivial, _, rfl⟩
  · simp only [if_neg hge]
    exact ⟨trivial, trivial, Or.inl trivial, _, rfl⟩

/-- C10: when the attempt reaches a successful delivery but a later
persistence step rejects (the credential-usage increment, the
completed-save, or the ticket save), the catch handler still moves the
job to pending or failed with that error message and returns false —
although the network send did happen, so a pending or failed job can
correspond to an email that was actually delivered and may be re-sent
on a later cycle. -/
theorem claim10_post_delivery_failure (job : Job) (env : Env)
    (tid : Nat) (ticket : Ticket) (cred : EmailCredential) (msgId : String)
    (ports : List Bool) (m : String)
    (h1 : env.claimSaveErr = none) (h5 : env.failSaveErr = none)
    (htid : job.dataTicketId = some tid)
    (hft : findTicket env.tickets tid = some ticket)
    (hsel : selectCredential env.creds = some cred)
    (hA : jsTruthy job.dataAttachmentBase64 = true)
    (hB : jsTruthy job.dataAttachmentFilename = true)
    (hts : trySend cred env.primarySend env.fallbackSend = (Except.ok msgId, ports))
    (hpost : env.credIncErr = some m ∨
      (env.credIncErr = none ∧ env.completeSaveErr = some m) ∨
      (env.credIncErr = none ∧ env.completeSaveErr = none ∧
        env.ticketSaveErr = some m)) :
    (processEmailJob job env).ret = Except.ok false ∧
    (processEmailJob job env).job.error = some m ∧
    ((processEmailJob job env).job.status = JobStatus.pending ∨
     (processEmailJob job env).job.status = JobStatus.failed) ∧
    StoreEvent.netSend false ∈ (processEmailJob job env).events := by
  have hports : ports = [false] ∨ ports = [false, true] := by
    have := trySend_ports cred env.primarySend env.fallbackSend
    rwa [hts] at this
  rcases hpost with hc | ⟨hc1, hc2⟩ | ⟨hc1, hc2, hc3⟩
  · have htp : tryProcess job env = Except.error (m,
        { job := claimJob job env.now,
          events := [StoreEvent.jobSave (claimJob job env.now),
                     StoreEvent.ticketFind tid, StoreEvent.credFind] ++
                    ports.map StoreEvent.netSend,
          stores := { tickets := env.tickets, creds := env.creds } }) := by
      simp only [tryProcess, h1, htid, hft, hsel, hA, hB, Bool.and_self,
        Bool.not_true, Bool.false_eq_true, if_false, hts, hc]
    obtain ⟨hret, herr, hstat, tail, hev⟩ := catch_commit job env m _ h5 htp
    refine ⟨hret, herr, hstat, ?_⟩
    rw [hev]
    rcases hports with hp | hp <;> subst hp <;> simp
  · have htp : tryProcess job env = Except.error (m,
        { job := { claimJob job env.now with
                     status := JobStatus.completed,
                     result := some { success := true, messageId := msgId },
                     updated_at := env.now },
          events := [StoreEvent.jobSave (claimJob job env.now),
                     StoreEvent.ticketFind tid, StoreEvent.credFind] ++
                    ports.map StoreEvent.netSend ++ [StoreEvent.credInc cred.id],
          stores := { tickets := env.tickets,
                      creds := incCredUsage env.creds cred.id } }) := by
      simp only [tryProcess, h1, htid, hft, hsel, hA, hB, Bool.and_self,
        Bool.not_true, Bool.false_eq_true, if_false, hts, hc1, hc2]
    obtain ⟨hret, herr, hstat, tail, hev⟩ := catch_commit job env m _ h5 htp
    refine ⟨hret, herr, hstat, ?_⟩
    rw [hev]
    rcases hports with hp | hp <;> subst hp <;> simp
  · have htp : tryProcess job env = Except.error (m,
        { job := { claimJob job env.now with
                     status := JobStatus.completed,
                     result := some { success := true, messageId := msgId },
                     updated_at := env.now },
          events := [StoreEvent.jobSave (claimJob job env.now),
                     StoreEvent.ticketFind tid, StoreEvent.credFind] ++
                    ports.map StoreEvent.netSend ++
                    [StoreEvent.credInc cred.id,
                     StoreEvent.jobSave
                       { claimJob job env.now with
                           status := JobStatus.completed,
                           result := some { success := true, messageId := msgId },
                           updated_at := env.now }],
          stores := { tickets := env.tickets,
                      creds := incCredUsage env.creds cred.id } }) := by
      simp only [tryProcess, h1, htid, hft, hsel, hA, hB, Bool.and_self,
        Bool.not_true, Bool.false_eq_true, if_false, hts, hc1, hc2, hc3]
    obtain ⟨hret, herr, hstat, tail, hev⟩ := catch_commit job env m _ h5 htp
    refine ⟨hret, herr, hstat, ?_⟩
    rw [hev]
    rcases hports with hp | hp <;> subst hp <;> simp

/-- An environment where delivery succeeds but the credential-usage
increment rejects. -/
def envPostW : Env := { envOkW with credIncErr := some "usage update failed" }

/-- C10 witness: with the increment rejecting after a successful send,
the concrete job returns false and goes back to pending with the
persistence error recorded, despite the recorded network send. -/
theorem claim10_post_delivery_failure_witness :
    (processEmailJob jobW envPostW).ret = Except.ok false ∧
    (processEmailJob jobW envPostW).job.error = some "usage update failed" ∧
    ((processEmailJob jobW envPostW).job.status = JobStatus.pending ∨
     (processEmailJob jobW envPostW).job.status = JobStatus.failed) ∧
    StoreEvent.netSend false ∈ (processEmailJob jobW envPostW).events :=
  claim10_post_delivery_failure jobW envPostW 1 ticketW credW "msg-1" [false]
    "usage update failed" rfl rfl rfl rfl rfl rfl rfl rfl (Or.inl rfl)
